import Mathlib

/-!
Shallow embedding of the client-side composition core of
`lyrics-video-creator` (frontend): the job state and its reducer
(`src/frontend/src/components/VideoGenerator.tsx`), the render request
encoder (`handleVideoGenerate` in the same file), and the preview
compositor (`VideoPreview`, `src/unnamed/part_002`).

Modelling conventions:
* JavaScript numbers that carry the settings values are embedded as `ℚ`
  (every value reachable through the UI widgets is an exact small
  rational, so `ℚ` is exact for them).
* A browser `File` object is embedded as an opaque asset identified by a
  natural number; a blob URL created for an asset is modelled by the
  asset's identifier.
* `FormData.append` sequences are embedded as an ordered list of
  (part name, part value) pairs.
* The DOM/network effects of `handleVideoGenerate` (alert, fetch,
  download anchor) are embedded as an explicit outcome value; the
  reducer dispatches it performs are recorded as a list of actions
  (the source performs none).
-/

/-- A binary asset handed to the frontend (a browser `File`).  Only its
identity matters to the core, so it is embedded as an opaque id. -/
structure File where
  id : Nat
deriving DecidableEq, Repr

/-- `SubtitleSettings` from `src/frontend/src/types/index.ts`. -/
structure SubtitleSettings where
  fontFamilyJa : String
  fontFamilyEn : String
  fontSize : ℚ
  color : String
  outlineColor : String
  outlineSize : ℚ
  bottomMargin : ℚ
  enableFade : Bool
deriving DecidableEq, Repr

/-- `VideoGeneratorState` from `src/frontend/src/types/index.ts`:
`audioFile`/`backgroundImage` are `File | null`, `lyrics` a string,
`settings` a fully populated `SubtitleSettings`. -/
structure VideoGeneratorState where
  audioFile : Option File
  backgroundImage : Option File
  lyrics : String
  settings : SubtitleSettings
deriving DecidableEq, Repr

/-- `initialState` from `VideoGenerator.tsx` lines 9-23. -/
def initialState : VideoGeneratorState :=
  { audioFile := none
    backgroundImage := none
    lyrics := ""
    settings :=
      { fontFamilyJa := "Noto Sans JP"
        fontFamilyEn := "Roboto"
        fontSize := 32
        color := "#ffffff"
        outlineColor := "#000000"
        outlineSize := 0
        bottomMargin := 50
        enableFade := true } }

/-- `Partial<SubtitleSettings>`: a sparse patch; `none` means the field
is absent from the patch object. -/
structure SettingsPatch where
  fontFamilyJa : Option String := none
  fontFamilyEn : Option String := none
  fontSize : Option ℚ := none
  color : Option String := none
  outlineColor : Option String := none
  outlineSize : Option ℚ := none
  bottomMargin : Option ℚ := none
  enableFade : Option Bool := none
deriving DecidableEq, Repr

/-- The JS object spread `{ ...state.settings, ...action.payload }` used
by the reducer's `UPDATE_SETTINGS` branch: fields present in the patch
override, absent fields keep their current value. -/
def mergeSettings (s : SubtitleSettings) (p : SettingsPatch) : SubtitleSettings :=
  { fontFamilyJa := p.fontFamilyJa.getD s.fontFamilyJa
    fontFamilyEn := p.fontFamilyEn.getD s.fontFamilyEn
    fontSize := p.fontSize.getD s.fontSize
    color := p.color.getD s.color
    outlineColor := p.outlineColor.getD s.outlineColor
    outlineSize := p.outlineSize.getD s.outlineSize
    bottomMargin := p.bottomMargin.getD s.bottomMargin
    enableFade := p.enableFade.getD s.enableFade }

/-- `ActionType` from `src/frontend/src/types/index.ts`. -/
inductive ActionType where
  | setAudioFile (payload : Option File)
  | setBackgroundImage (payload : Option File)
  | setLyrics (payload : String)
  | updateSettings (payload : SettingsPatch)
deriving DecidableEq, Repr

/-- `reducer` from `VideoGenerator.tsx` lines 25-41.  The inductive
`ActionType` is closed, so the JS `default: return state` branch has no
counterpart. -/
def reducer (state : VideoGeneratorState) (action : ActionType) : VideoGeneratorState :=
  match action with
  | .setAudioFile payload => { state with audioFile := payload }
  | .setBackgroundImage payload => { state with backgroundImage := payload }
  | .setLyrics payload => { state with lyrics := payload }
  | .updateSettings payload =>
      { state with settings := mergeSettings state.settings payload }

/-- Folding a list of `UPDATE_SETTINGS` patches over a settings value. -/
def applyPatches (s : SubtitleSettings) (ps : List SettingsPatch) : SubtitleSettings :=
  ps.foldl mergeSettings s

/-- The empty patch `{}`. -/
def emptyPatch : SettingsPatch := {}

/-- Spec-side reading of "the last patch that named this field": scan the
patch sequence from the end for the first patch assigning the field. -/
def lastNamed {α : Type} (get : SettingsPatch → Option α) (ps : List SettingsPatch) : Option α :=
  ps.reverse.findSome? get

/-- Decimal digits of the fractional part of a long division `r / d`
(`0 ≤ r < d`), with fuel.  Every settings value reachable through the UI
widgets has a terminating decimal expansion well within the fuel, where
this agrees with JS `Number.prototype.toString`. -/
def decFracDigits : Nat → Nat → Nat → String
  | 0, _, _ => ""
  | fuel + 1, r, d =>
      if r = 0 then ""
      else toString (r * 10 / d) ++ decFracDigits fuel (r * 10 % d) d

/-- JS `Number.prototype.toString` on the rationals the settings can
hold (`32 ↦ "32"`, `1/4 ↦ "0.25"`, …), computed by long division on the
reduced numerator and denominator. -/
def decStr (q : ℚ) : String :=
  let sign := if q.num < 0 then "-" else ""
  let n := q.num.natAbs
  sign ++ toString (n / q.den) ++
    (if n % q.den = 0 then "" else "." ++ decFracDigits 32 (n % q.den) q.den)

example : decStr 32 = "32" := by decide
example : decStr (Rat.mk' 1 4 (by decide) (by decide)) = "0.25" := by decide
example : decStr 0 = "0" := by decide
example : decStr 50 = "50" := by decide

/-- A value appended to a `FormData` part: either a `File` or a string. -/
inductive FormValue where
  | file (f : File)
  | str (s : String)
deriving DecidableEq, Repr

/-- The `FormData` built by `handleVideoGenerate` (lines 68-79), in
append order. -/
def buildFormData (audio image : File) (lyrics : String)
    (st : SubtitleSettings) : List (String × FormValue) :=
  [("music_file", .file audio),
   ("image_file", .file image),
   ("lyrics", .str lyrics),
   ("font_size", .str (decStr st.fontSize)),
   ("font_color", .str st.color),
   ("font_name_ja", .str st.fontFamilyJa),
   ("font_name_en", .str st.fontFamilyEn),
   ("outline_color", .str st.outlineColor),
   ("outline_size", .str (decStr st.outlineSize)),
   ("bottom_margin", .str (decStr st.bottomMargin)),
   ("enable_fade", .str (toString st.enableFade))]

/-- The parts of a backend reply `handleVideoGenerate` looks at:
`response.status`, the body read as text (`response.text()`), and the
declared content type of the body read as blob (`response.blob().type`). -/
structure HttpResponse where
  status : Nat
  bodyText : String
  blobType : String
deriving DecidableEq, Repr

/-- `Response.ok` of the fetch API: status in the range 200-299. -/
def HttpResponse.ok (r : HttpResponse) : Bool :=
  200 ≤ r.status && r.status < 300

/-- Outcome of the `fetch` call: either a network-level failure (the
promise rejects with an `Error` carrying `message`, no response at all)
or a response. -/
inductive FetchOutcome where
  | failure (message : String)
  | response (r : HttpResponse)
deriving DecidableEq, Repr

/-- The user-visible outcome of one `handleVideoGenerate` run. -/
inductive GenerateResult where
  /-- The early-return branch: `alert` with the validation message, no
  request built. -/
  | validationAlert (message : String)
  /-- The `catch` branch: `alert` with the error message. -/
  | errorAlert (message : String)
  /-- The success branch: an anchor download of the response blob named
  `fileName`; `typeWarning` records whether the content-type mismatch
  `console.warn` fired. -/
  | downloaded (fileName : String) (typeWarning : Bool)
deriving DecidableEq, Repr

/-- One run of `handleVideoGenerate`: the multipart body it built and
posted (`none` when the guard returned early and nothing was sent), the
user-visible result, and the reducer actions it dispatched (the source
dispatches none). -/
structure GenerateRun where
  request : Option (List (String × FormValue))
  result : GenerateResult
  dispatched : List ActionType
deriving DecidableEq, Repr

/-- `handleVideoGenerate` from `VideoGenerator.tsx` lines 62-117.  The
JS guard `if (!state.audioFile || !state.backgroundImage ||
!state.lyrics)` is the match on the two options and on `lyrics == ""`
(the empty string is the only falsy string). -/
def handleVideoGenerate (state : VideoGeneratorState)
    (net : FetchOutcome) : GenerateRun :=
  match state.audioFile, state.backgroundImage, state.lyrics == "" with
  | some audio, some image, false =>
      let formData :=
        buildFormData audio image state.lyrics state.settings
      match net with
      | .failure msg =>
          { request := some formData
            result := .errorAlert ("エラーが発生しました: " ++ msg)
            dispatched := [] }
      | .response r =>
          if !r.ok then
            { request := some formData
              result := .errorAlert
                ("エラーが発生しました: 動画生成に失敗しました: "
                  ++ toString r.status ++ " " ++ r.bodyText)
              dispatched := [] }
          else
            { request := some formData
              result := .downloaded "lyrics_video.mp4"
                (r.blobType != "video/mp4")
              dispatched := [] }
  | _, _, _ =>
      { request := none
        result := .validationAlert "必要なファイルまたは歌詞が設定されていません。"
        dispatched := [] }

/-- The `disabled` expression of the submit button (line 150-153):
`!state.audioFile || !state.backgroundImage || !state.lyrics`. -/
def submitDisabled (state : VideoGeneratorState) : Bool :=
  state.audioFile.isNone || state.backgroundImage.isNone
    || (state.lyrics == "")

/-- The guard expression at the top of `handleVideoGenerate` (lines
62-66): the same `!state.audioFile || !state.backgroundImage ||
!state.lyrics`. -/
def generateGuardFails (state : VideoGeneratorState) : Bool :=
  state.audioFile.isNone || state.backgroundImage.isNone
    || (state.lyrics == "")

/-- The spec's submit-eligibility predicate is the negation of the
button's `disabled` expression. -/
def submitEligible (state : VideoGeneratorState) : Bool :=
  !submitDisabled state

/-- The relevant `React.CSSProperties` fields of the two subtitle style
objects in `VideoPreview` (`src/unnamed/part_002`).  Pixel lengths
written in the source as template strings (`` `${x}px` ``) are embedded
as the numeric value `x`; `textShadow` and `webkitTextStroke` are kept
as the literal strings the source builds.  `marginTop` is `none` when
the style object has no such key. -/
structure CSSProperties where
  fontFamily : String
  fontSize : ℚ
  color : String
  textShadow : String
  webkitTextStroke : String
  marginTop : Option ℚ
  marginBottom : ℚ
  padding : ℚ
deriving DecidableEq, Repr

/-- `subtitleStyle` (part_002 lines 39-47): the primary, Japanese
subtitle line. -/
def subtitleStyle (st : SubtitleSettings) : CSSProperties :=
  { fontFamily := st.fontFamilyJa
    fontSize := st.fontSize
    color := st.color
    textShadow := "0 0 " ++ decStr st.outlineSize ++ "px " ++ st.outlineColor
    webkitTextStroke := decStr st.outlineSize ++ "px " ++ st.outlineColor
    marginTop := none
    marginBottom := 0
    padding := 0 }

/-- `englishSubtitleStyle` (part_002 lines 50-56): spread of
`subtitleStyle` with the font family, the halved font size, and the
margins overridden. -/
def englishSubtitleStyle (st : SubtitleSettings) : CSSProperties :=
  { subtitleStyle st with
    fontFamily := st.fontFamilyEn
    fontSize := st.fontSize / 2
    marginTop := some 0
    marginBottom := st.bottomMargin }

/-- The reactive state of `VideoPreview` relevant to aspect-ratio
derivation: the `backgroundUrl` React state (a blob URL, modelled by the
id of the asset it was created from), the `aspectRatio` React state, and
the set of `Image` loads started by effect runs whose `onload` has not
fired yet (each keyed by the id of the asset whose blob URL was assigned
to `img.src`). -/
structure PreviewState where
  backgroundUrl : Option Nat
  aspectRatio : ℚ
  pendingLoads : List Nat
deriving DecidableEq, Repr

/-- `VideoPreview`'s initial hook state: no URL, ratio `16 / 9`, no load
in flight. -/
def initialPreviewState : PreviewState :=
  { backgroundUrl := none, aspectRatio := 16 / 9, pendingLoads := [] }

/-- One run of the `React.useEffect` body (part_002 lines 19-37) after
`backgroundImage` changed to `bg`.  With an image present it creates a
blob URL, stores it, and starts an `Image` load of that URL; the cleanup
of the previous run only revokes the previous blob URL — it does not
detach the previous `img.onload` handler, so an earlier load still in
flight stays pending.  With no image it clears the URL and resets the
ratio to `16 / 9`. -/
def runEffect (bg : Option File) (st : PreviewState) : PreviewState :=
  match bg with
  | some f =>
      { st with
        backgroundUrl := some f.id
        pendingLoads := f.id :: st.pendingLoads }
  | none =>
      { st with backgroundUrl := none, aspectRatio := 16 / 9 }

/-- Delivery of the `img.onload` event for the pending load keyed by
`assetId`, the decoded image having native dimensions `w × h`.  The
handler runs `setAspectRatio(img.width / img.height)` unconditionally —
nothing compares the load against the currently stored asset. -/
def deliverLoad (assetId w h : Nat) (st : PreviewState) : PreviewState :=
  if assetId ∈ st.pendingLoads then
    { st with
      aspectRatio := (w : ℚ) / (h : ℚ)
      pendingLoads := st.pendingLoads.erase assetId }
  else st

/-- The submit-eligible state of the spec's default scenario: audio and
background present, `lyrics = "line1\nline2"`, default settings. -/
def defaultScenarioState : VideoGeneratorState :=
  { initialState with
    audioFile := some ⟨0⟩
    backgroundImage := some ⟨1⟩
    lyrics := "line1\nline2" }

/-- Folding one field's patches: the last patch that assigned the field
wins. -/
theorem applyPatches_proj {α : Type} (get : SettingsPatch → Option α)
    (proj : SubtitleSettings → α)
    (hcomm : ∀ s p, proj (mergeSettings s p) = (get p).getD (proj s)) :
    ∀ (ps : List SettingsPatch) (s : SubtitleSettings),
      proj (applyPatches s ps) = (lastNamed get ps).getD (proj s) := by
  intro ps
  induction ps with
  | nil => intro s; simp [applyPatches, lastNamed]
  | cons p ps ih =>
      intro s
      have h1 : applyPatches s (p :: ps) = applyPatches (mergeSettings s p) ps := rfl
      rw [h1, ih, hcomm]
      simp only [lastNamed, List.reverse_cons, List.findSome?_append]
      cases hq : List.findSome? get ps.reverse with
      | some a => simp [Option.or]
      | none => cases hp : get p <;> simp [Option.or, List.findSome?, hp]

/-- C2: submit-eligibility is true exactly when the audio asset and the
background asset are present and the lyric text is non-empty (hence
false for the remaining seven presence combinations), and the submit
button's `disabled` expression and the guard of `handleVideoGenerate`
are the same predicate. -/
theorem submit_eligibility_iff (s : VideoGeneratorState) :
    (submitEligible s = true ↔
      (s.audioFile.isSome = true ∧ s.backgroundImage.isSome = true ∧
        s.lyrics ≠ ""))
    ∧ submitDisabled s = generateGuardFails s
    ∧ submitEligible s = !generateGuardFails s := by
  refine ⟨?_, rfl, rfl⟩
  obtain ⟨a, b, l, stg⟩ := s
  cases a <;> cases b <;> simp [submitEligible, submitDisabled]

/-- C3: over any sequence of `UPDATE_SETTINGS` patches, each settings
field ends at the value assigned by the last patch that named it, or at
its prior value when no patch named it; and merging the empty patch, or
dispatching `UPDATE_SETTINGS` with the empty patch through the reducer,
is the identity under structural equality. -/
theorem updateSettings_last_write_wins (s : SubtitleSettings)
    (ps : List SettingsPatch) (st : VideoGeneratorState) :
    (applyPatches s ps).fontFamilyJa
        = (lastNamed (fun p => p.fontFamilyJa) ps).getD s.fontFamilyJa
    ∧ (applyPatches s ps).fontFamilyEn
        = (lastNamed (fun p => p.fontFamilyEn) ps).getD s.fontFamilyEn
    ∧ (applyPatches s ps).fontSize
        = (lastNamed (fun p => p.fontSize) ps).getD s.fontSize
    ∧ (applyPatches s ps).color
        = (lastNamed (fun p => p.color) ps).getD s.color
    ∧ (applyPatches s ps).outlineColor
        = (lastNamed (fun p => p.outlineColor) ps).getD s.outlineColor
    ∧ (applyPatches s ps).outlineSize
        = (lastNamed (fun p => p.outlineSize) ps).getD s.outlineSize
    ∧ (applyPatches s ps).bottomMargin
        = (lastNamed (fun p => p.bottomMargin) ps).getD s.bottomMargin
    ∧ (applyPatches s ps).enableFade
        = (lastNamed (fun p => p.enableFade) ps).getD s.enableFade
    ∧ mergeSettings s emptyPatch = s
    ∧ reducer st (.updateSettings emptyPatch) = st := by
  refine ⟨?_, ?_, ?_, ?_, ?_, ?_, ?_, ?_, rfl, rfl⟩ <;>
    exact applyPatches_proj _ _ (fun _ _ => rfl) ps s

/-- C4: when the guard predicate fails, `handleVideoGenerate` raises the
client-side validation alert and returns before any multipart body is
built or sent. -/
theorem generate_validation_fails_fast (s : VideoGeneratorState)
    (net : FetchOutcome) (h : generateGuardFails s = true) :
    (handleVideoGenerate s net).request = none
    ∧ (handleVideoGenerate s net).result
        = .validationAlert "必要なファイルまたは歌詞が設定されていません。" := by
  obtain ⟨a, b, l, stg⟩ := s
  cases a <;> cases b <;> cases hl : l == "" <;>
    simp_all [handleVideoGenerate, generateGuardFails]

/-- Witness for C4: the initial state (no assets, empty lyrics) fails
the guard and produces only the validation alert. -/
theorem generate_validation_fails_fast_witness :
    generateGuardFails initialState = true
    ∧ (handleVideoGenerate initialState (.failure "connection refused")).request = none
    ∧ (handleVideoGenerate initialState (.failure "connection refused")).result
        = .validationAlert "必要なファイルまたは歌詞が設定されていません。" := by
  have h := generate_validation_fails_fast initialState
    (.failure "connection refused") (by decide)
  exact ⟨by decide, h.1, h.2⟩

/-- C10: `handleVideoGenerate` never mutates the job state: it
dispatches no reducer action, so on every outcome all four fields of the
state are unchanged after the flow. -/
theorem generate_preserves_job_state (s : VideoGeneratorState)
    (net : FetchOutcome) :
    (handleVideoGenerate s net).dispatched = []
    ∧ ((handleVideoGenerate s net).dispatched.foldl reducer s).audioFile
        = s.audioFile
    ∧ ((handleVideoGenerate s net).dispatched.foldl reducer s).backgroundImage
        = s.backgroundImage
    ∧ ((handleVideoGenerate s net).dispatched.foldl reducer s).lyrics
        = s.lyrics
    ∧ ((handleVideoGenerate s net).dispatched.foldl reducer s).settings
        = s.settings := by
  have hd : (handleVideoGenerate s net).dispatched = [] := by
    obtain ⟨a, b, l, stg⟩ := s
    cases a <;> cases b <;> cases hl : l == "" <;> cases net
    all_goals simp [handleVideoGenerate, hl]
    all_goals first
      | rfl
      | (split <;> rfl)
  exact ⟨hd, by rw [hd]; rfl, by rw [hd]; rfl, by rw [hd]; rfl,
    by rw [hd]; rfl⟩

/-- C1: for every submit-eligible state, the encoder posts exactly the
eleven multipart parts, in source order, with the documented names and
values; and in the default scenario the encoded request contains
`font_size=32`, `font_name_ja=Noto Sans JP` and `enable_fade=true`. -/
theorem encoder_multipart_parts (s : VideoGeneratorState) (a b : File)
    (net : FetchOutcome) (ha : s.audioFile = some a)
    (hb : s.backgroundImage = some b) (hl : s.lyrics ≠ "") :
    (handleVideoGenerate s net).request =
      some [("music_file", FormValue.file a),
            ("image_file", FormValue.file b),
            ("lyrics", FormValue.str s.lyrics),
            ("font_size", FormValue.str (decStr s.settings.fontSize)),
            ("font_color", FormValue.str s.settings.color),
            ("font_name_ja", FormValue.str s.settings.fontFamilyJa),
            ("font_name_en", FormValue.str s.settings.fontFamilyEn),
            ("outline_color", FormValue.str s.settings.outlineColor),
            ("outline_size", FormValue.str (decStr s.settings.outlineSize)),
            ("bottom_margin", FormValue.str (decStr s.settings.bottomMargin)),
            ("enable_fade", FormValue.str
              (if s.settings.enableFade then "true" else "false"))]
    ∧ ("font_size", FormValue.str "32")
        ∈ buildFormData ⟨0⟩ ⟨1⟩ defaultScenarioState.lyrics
            defaultScenarioState.settings
    ∧ ("font_name_ja", FormValue.str "Noto Sans JP")
        ∈ buildFormData ⟨0⟩ ⟨1⟩ defaultScenarioState.lyrics
            defaultScenarioState.settings
    ∧ ("enable_fade", FormValue.str "true")
        ∈ buildFormData ⟨0⟩ ⟨1⟩ defaultScenarioState.lyrics
            defaultScenarioState.settings := by
  refine ⟨?_, by decide, by decide, by decide⟩
  obtain ⟨a', b', l, stg⟩ := s
  simp only [VideoGeneratorState.audioFile] at ha
  simp only [VideoGeneratorState.backgroundImage] at hb
  subst ha hb
  have hbeq : (l == "") = false := by simpa using hl
  obtain ⟨fja, fen, fs, c, oc, os, bm, ef⟩ := stg
  cases ef <;> cases net <;>
    simp [handleVideoGenerate, buildFormData, hbeq] <;>
    first
      | rfl
      | (split <;> rfl)

/-- Witness for C1: the default scenario state is eligible and its
encoded request is the concrete eleven-part list of the spec's
scenario. -/
theorem encoder_multipart_parts_witness :
    defaultScenarioState.audioFile = some ⟨0⟩
    ∧ defaultScenarioState.backgroundImage = some ⟨1⟩
    ∧ defaultScenarioState.lyrics ≠ ""
    ∧ (handleVideoGenerate defaultScenarioState
        (.failure "connection refused")).request =
      some [("music_file", FormValue.file ⟨0⟩),
            ("image_file", FormValue.file ⟨1⟩),
            ("lyrics", FormValue.str "line1\nline2"),
            ("font_size", FormValue.str "32"),
            ("font_color", FormValue.str "#ffffff"),
            ("font_name_ja", FormValue.str "Noto Sans JP"),
            ("font_name_en", FormValue.str "Roboto"),
            ("outline_color", FormValue.str "#000000"),
            ("outline_size", FormValue.str "0"),
            ("bottom_margin", FormValue.str "50"),
            ("enable_fade", FormValue.str "true")] := by
  have h := encoder_multipart_parts defaultScenarioState ⟨0⟩ ⟨1⟩
    (.failure "connection refused") rfl rfl (by decide)
  refine ⟨rfl, rfl, by decide, ?_⟩
  rw [h.1]
  decide

/-- C5: an HTTP response with a non-success status makes the run surface
an alert whose message carries both the status code and the body text,
and no download is produced. -/
theorem http_error_surfaced (s : VideoGeneratorState) (a b : File)
    (r : HttpResponse) (ha : s.audioFile = some a)
    (hb : s.backgroundImage = some b) (hl : s.lyrics ≠ "")
    (hr : r.ok = false) :
    (handleVideoGenerate s (.response r)).result
      = .errorAlert ("エラーが発生しました: 動画生成に失敗しました: "
          ++ toString r.status ++ " " ++ r.bodyText)
    ∧ ∀ fn w, (handleVideoGenerate s (.response r)).result
        ≠ .downloaded fn w := by
  obtain ⟨a', b', l, stg⟩ := s
  simp only [VideoGeneratorState.audioFile] at ha
  simp only [VideoGeneratorState.backgroundImage] at hb
  subst ha hb
  have hbeq : (l == "") = false := by simpa using hl
  simp [handleVideoGenerate, hbeq, hr]

/-- Witness for C5: a 500 response with body `"render failed"` on the
default scenario yields the alert carrying `500` and the body text. -/
theorem http_error_surfaced_witness :
    HttpResponse.ok ⟨500, "render failed", "text/plain"⟩ = false
    ∧ (handleVideoGenerate defaultScenarioState
        (.response ⟨500, "render failed", "text/plain"⟩)).result
      = .errorAlert "エラーが発生しました: 動画生成に失敗しました: 500 render failed" := by
  have h := http_error_surfaced defaultScenarioState ⟨0⟩ ⟨1⟩
    ⟨500, "render failed", "text/plain"⟩ rfl rfl (by decide) (by decide)
  refine ⟨by decide, ?_⟩
  rw [h.1]
  decide

/-- C6: an HTTP success response is always accepted and offered as a
download named `lyrics_video.mp4`; a declared content type other than
`video/mp4` only sets the non-fatal warning flag, it never causes
rejection. -/
theorem success_download_lenient (s : VideoGeneratorState) (a b : File)
    (r : HttpResponse) (ha : s.audioFile = some a)
    (hb : s.backgroundImage = some b) (hl : s.lyrics ≠ "")
    (hr : r.ok = true) :
    (handleVideoGenerate s (.response r)).result
      = .downloaded "lyrics_video.mp4" (r.blobType != "video/mp4") := by
  obtain ⟨a', b', l, stg⟩ := s
  simp only [VideoGeneratorState.audioFile] at ha
  simp only [VideoGeneratorState.backgroundImage] at hb
  subst ha hb
  have hbeq : (l == "") = false := by simpa using hl
  simp [handleVideoGenerate, hbeq, hr]

/-- Witness for C6: a 200 response declared as `application/octet-stream`
is still downloaded as `lyrics_video.mp4`, with the warning flag set. -/
theorem success_download_lenient_witness :
    HttpResponse.ok ⟨200, "", "application/octet-stream"⟩ = true
    ∧ (handleVideoGenerate defaultScenarioState
        (.response ⟨200, "", "application/octet-stream"⟩)).result
      = .downloaded "lyrics_video.mp4" true := by
  have h := success_download_lenient defaultScenarioState ⟨0⟩ ⟨1⟩
    ⟨200, "", "application/octet-stream"⟩ rfl rfl (by decide) (by decide)
  refine ⟨by decide, ?_⟩
  rw [h]
  decide

/-- C7: for every settings value with `fontSize` in the slider's domain,
the secondary subtitle is rendered at exactly half the primary font size
in the secondary font family, and `bottomMargin` is reserved below the
secondary line only — the primary line's bottom margin is 0. -/
theorem secondary_subtitle_style (st : SubtitleSettings)
    (_h1 : 16 ≤ st.fontSize) (_h2 : st.fontSize ≤ 72) :
    (englishSubtitleStyle st).fontSize = st.fontSize / 2
    ∧ (englishSubtitleStyle st).fontFamily = st.fontFamilyEn
    ∧ (subtitleStyle st).marginBottom = 0
    ∧ (englishSubtitleStyle st).marginBottom = st.bottomMargin
    ∧ (englishSubtitleStyle st).marginTop = some 0 :=
  ⟨rfl, rfl, rfl, rfl, rfl⟩

/-- Witness for C7: the default settings (`fontSize = 32`) satisfy the
domain bounds and yield the derived secondary style. -/
theorem secondary_subtitle_style_witness :
    (16 ≤ initialState.settings.fontSize
      ∧ initialState.settings.fontSize ≤ 72)
    ∧ (englishSubtitleStyle initialState.settings).fontSize
        = initialState.settings.fontSize / 2
    ∧ (subtitleStyle initialState.settings).marginBottom = 0
    ∧ (englishSubtitleStyle initialState.settings).marginBottom
        = initialState.settings.bottomMargin := by
  have h := secondary_subtitle_style initialState.settings
    (by decide) (by decide)
  exact ⟨⟨by decide, by decide⟩, h.1, h.2.2.1, h.2.2.2.1⟩

/-- C8: the preview's aspect ratio is exactly `16 / 9` initially and
whenever no background image is set; once the decode of a present image
delivers native dimensions `w × h`, the ratio is `w / h` — in particular
a 1920 × 1080 image yields exactly `16 / 9`. -/
theorem preview_aspect_ratio_derivation (st : PreviewState) (f : File)
    (w h : Nat) :
    initialPreviewState.aspectRatio = 16 / 9
    ∧ (runEffect none st).aspectRatio = 16 / 9
    ∧ (deliverLoad f.id w h (runEffect (some f) st)).aspectRatio
        = (w : ℚ) / (h : ℚ)
    ∧ (deliverLoad 0 1920 1080
        (runEffect (some ⟨0⟩) initialPreviewState)).aspectRatio = 16 / 9 := by
  refine ⟨rfl, rfl, ?_, ?_⟩
  · simp [runEffect, deliverLoad]
  · simp [runEffect, deliverLoad, initialPreviewState]
    norm_num

/-- C9 as stated is false of the code: the `onload` handler applies its
result unconditionally, so a decode result arriving after its asset has
been replaced still updates the aspect ratio.  Concretely: upload asset
0, replace it with asset 1, then let asset 0's decode (4 × 1) arrive —
the ratio changes from `16 / 9` to `4` although asset 0 is no longer
current. -/
theorem stale_decode_discard_counterexample :
    (runEffect (some ⟨1⟩)
        (runEffect (some ⟨0⟩) initialPreviewState)).backgroundUrl = some 1
    ∧ (runEffect (some ⟨1⟩)
        (runEffect (some ⟨0⟩) initialPreviewState)).aspectRatio = 16 / 9
    ∧ (deliverLoad 0 4 1 (runEffect (some ⟨1⟩)
        (runEffect (some ⟨0⟩) initialPreviewState))).aspectRatio = 4
    ∧ (4 : ℚ) ≠ 16 / 9 := by
  refine ⟨rfl, rfl, ?_, by norm_num⟩
  simp [runEffect, deliverLoad, initialPreviewState]

/-- C9 amended: each decode is keyed, at start, to the asset current at
its effect run (its blob URL), but a result that arrives after the asset
has been replaced is still applied: the handler performs no current-
decode-token comparison, so the late dimensions overwrite the aspect
ratio even while the stored background URL belongs to the new asset. -/
theorem stale_decode_updates_ratio (st : PreviewState) (f g : File)
    (w h : Nat) (hf : f.id ∈ st.pendingLoads) :
    (runEffect (some g) st).backgroundUrl = some g.id
    ∧ (deliverLoad f.id w h (runEffect (some g) st)).aspectRatio
        = (w : ℚ) / (h : ℚ) := by
  refine ⟨rfl, ?_⟩
  simp [runEffect, deliverLoad, List.mem_cons, hf]

/-- Witness for the amended C9: with asset 0's decode pending, replacing
the background with asset 1 and then delivering asset 0's 4 × 1 result
still rewrites the ratio to `4 / 1`. -/
theorem stale_decode_updates_ratio_witness :
    (0 : Nat) ∈ (PreviewState.mk (some 0) (16 / 9) [0]).pendingLoads
    ∧ (runEffect (some ⟨1⟩)
        (PreviewState.mk (some 0) (16 / 9) [0])).backgroundUrl = some 1
    ∧ (deliverLoad 0 4 1 (runEffect (some ⟨1⟩)
        (PreviewState.mk (some 0) (16 / 9) [0]))).aspectRatio
      = ((4 : Nat) : ℚ) / ((1 : Nat) : ℚ) := by
  have h := stale_decode_updates_ratio
    (PreviewState.mk (some 0) (16 / 9) [0]) ⟨0⟩ ⟨1⟩ 4 1 (by decide)
  exact ⟨by decide, h.1, h.2⟩
